/-
Verification of the starwars ETL pipeline (starwars/utils/starwars_api_helper.py)
against its natural-language specification.

The Python code is shallowly embedded: petl tables become a header plus a list
of rows of cells, the Django `Metadata` store becomes a list of rows with an
insertion-ordered `date`, HTTP traffic becomes an environment that maps each
request to the response the remote would give, and Python exceptions become
`Except PyErr`.
-/
import Mathlib

/-- Cell of a petl table. `none` models the Python value `None`
(a missing key in `fromdicts`, or a conversion error swallowed by
`etl.convert`, whose `failonerror` defaults to `False`). -/
abbrev Cell := Option String

/-- Record as delivered by the JSON API: an association list from field name
to (string-rendered) value, modelling one element of a page's `results`. -/
abbrev Rec := List (String × String)

/-- Shallow embedding of a petl table: a header of field names and rows of
cells.  Row order in this model is source order; petl's sort-based
transforms (`join`, `aggregate`, `distinct`) enumerate rows grouped by
sorted key instead, an ordering the spec explicitly disclaims, so every
theorem below is stated order-insensitively wherever the two differ. -/
structure Tbl where
  header : List String
  rows : List (List Cell)
deriving DecidableEq, Repr

/-- Python exceptions that the helper can raise.
`runtimeError` models CPython's behaviour for a bare `raise` with no active
exception; `doesNotExist` models `Metadata.DoesNotExist` escaping from
`.latest("date")`.  `remoteApiError` never occurs in the code: it is the
error family the specification claims for non-200/304 statuses and exists
only so that claim can be stated and compared with the code. -/
inductive PyErr where
  | runtimeError (msg : String)
  | doesNotExist
  | remoteApiError (code : Nat)
deriving DecidableEq, Repr

/-- Row of the Django `Metadata` model (starwars/models.py).  `date` is the
`auto_now_add` timestamp, modelled as a counter that strictly increases with
each `objects.create`; `etag` is `Option String` because the value stored
comes from `response.headers.get("ETag")`, which is `None` when the remote
sends no ETag header. -/
structure MetaRow where
  file_name : String
  file_path : String
  table_info_type : String
  etag : Option String
  date : Nat
deriving DecidableEq, Repr

/-- Mutable world touched by the pipeline: the metadata store (append-only)
and a log of the CSV files written by successful `tocsv` calls. -/
structure St where
  store : List MetaRow
  files : List (String × Tbl)
deriving DecidableEq, Repr

/-- Remote behaviour of one resource endpoint (people or planets).
`etagHeader` is the `ETag` header of a plain GET of the base URL;
`cond` gives the status code of a conditional GET as a function of the
`If-None-Match` value sent (`none` = header omitted, which `requests` does
when the header value is Python `None`); `pages` is the chain of result
pages reachable from the base URL, the last page being the one whose
`next` link is `null`. -/
structure QueryEnv where
  etagHeader : Option String
  cond : Option String → Nat
  pages : List (List Rec)

/-- Whole external world: the two endpoints, the filesystem contents read by
`etl.fromcsv`, and the outcome of `table.tocsv(path)` (`none` = success,
`some msg` = the exception message raised while writing). -/
structure Env where
  people : QueryEnv
  planets : QueryEnv
  fs : String → Tbl
  writeResult : String → Option String

/-- Constructor arguments of `StarwarsEtl.__init__`. -/
structure Etl where
  CSV_FILE_NAME : String
  CSV_FILE_PATH : String
  people_query : String
  planets_query : String

/-- Row of the Django store holding the most recent `date` for a
`table_info_type`, modelling `Metadata.objects.filter(table_info_type=q).latest("date")`;
`none` models `Metadata.DoesNotExist`.  Later rows win timestamp ties,
matching insertion order as the tie-break. -/
def latestRow (store : List MetaRow) (q : String) : Option MetaRow :=
  (store.filter (fun r => r.table_info_type == q)).foldl
    (fun acc r =>
      match acc with
      | none => some r
      | some b => if b.date ≤ r.date then some r else some b)
    none

/-- Embedding of `StarwarsEtl.get_latest_etags` (lines 28-44): the stored
etag of the latest metadata row for `query`, or the empty string when no
row exists.  The result is `Option String` because a stored etag can be
Python `None`. -/
def get_latest_etags (store : List MetaRow) (query : String) : Option String :=
  match latestRow store query with
  | some meta => meta.etag
  | none => some ""

/-- Embedding of `StarwarsEtl.check_for_updates` (lines 46-70), as a function
of the status code the conditional GET came back with: 304 yields `False`,
any status other than 200 executes a bare `raise` — which, with no active
exception, is CPython's `RuntimeError: No active exception to re-raise` —
and 200 yields `True`. -/
def check_for_updates (status : Nat) : Except PyErr Bool :=
  if status = 304 then .ok false
  else if status ≠ 200 then .error (.runtimeError "No active exception to re-raise")
  else .ok true

/-- Characterwise ASCII lowercasing, modelling the case folding of the
`requests` library's case-insensitive header map. -/
def lowerStr (s : String) : String := String.mk (s.data.map Char.toLower)

/-- Embedding of `StarwarsEtl.get_current_etag` (lines 72-82):
`response.headers.get("ETag")` on the response's (case-insensitive) header
map — `some v` when the header is present, `None` (not `""`) when absent. -/
def get_current_etag (headers : List (String × String)) : Option String :=
  (headers.find? (fun p => lowerStr p.1 == "etag")).map Prod.snd

/-- Embedding of the pagination loop of `StarwarsEtl.get_latest_data`
(lines 106-110): starting from the base URL the loop fetches a page,
appends its `results` to the accumulator, and repeats on the page's `next`
URL until that link is `null`.  The argument is the chain of pages the
loop traverses (the last element being the page with `next = null`), so
the loop is exactly concatenation in page order. -/
def get_data_loop : List (List Rec) → List Rec
  | [] => []
  | page :: rest => page ++ get_data_loop rest

/-- Embedding of `etl.fromdicts` (line 112): the header is the union of the
records' keys in first-encounter order, and each row lists the record's
value at each header key, `None` where the record lacks the key. -/
def fromdicts (recs : List Rec) : Tbl :=
  let header := ((recs.flatMap (fun r => r.map Prod.fst))).eraseDups
  { header := header
    rows := recs.map (fun r => header.map (fun k => r.lookup k)) }

/-- Index of a field name in a header, modelling petl's field-to-index
resolution (first occurrence). -/
def fieldIdx (header : List String) (name : String) : Nat :=
  header.indexOf name

/-- Cell of a row at a named field of a header; rows shorter than the header
read as `None`.  (petl raises on a field missing from the header; no theorem
below exercises that case — each one pins the headers by hypothesis.) -/
def cellAt (header : List String) (row : List Cell) (name : String) : Cell :=
  row.getD (fieldIdx header name) none

/-- Embedding of `etl.cut` with a list of field names: project each row to
the named fields, in the order requested. -/
def cutTbl (t : Tbl) (cols : List String) : Tbl :=
  { header := cols
    rows := t.rows.map (fun r => cols.map (fun c => cellAt t.header r c)) }

/-- Embedding of `etl.rename` with a mapping: every header name that occurs
in the mapping is replaced by its image. -/
def renameTbl (t : Tbl) (renames : List (String × String)) : Tbl :=
  { t with header := t.header.map (fun h => ((renames.find? (fun p => p.1 == h)).map Prod.snd).getD h) }

/-- Embedding of `etl.convert` on one field with a fallible Python function:
each cell of that field is replaced by the function's result, and `None` when
the function raises (petl's default `failonerror=False` substitutes the
default `errorvalue=None`; applying the function to a `None` cell raises
`TypeError` and is likewise mapped to `None`). -/
def convertTbl (t : Tbl) (field : String) (f : String → Option String) : Tbl :=
  let i := fieldIdx t.header field
  { t with rows := t.rows.map (fun r => r.set i ((r.getD i none).bind f)) }

/-- Embedding of `petl.join` with `lkey`/`rkey`: inner join.  Each pair of a
left row and a right row whose key cells are equal contributes one output
row, the left row followed by the right row with its key column dropped;
left rows with no key match contribute nothing.  petl enumerates the output
grouped by sorted key — this model keeps left-row order; the two agree as
multisets and every theorem below is order-insensitive on joins. -/
def joinTbl (l r : Tbl) (lkey rkey : String) : Tbl :=
  let li := fieldIdx l.header lkey
  let ri := fieldIdx r.header rkey
  { header := l.header ++ r.header.eraseIdx ri
    rows := l.rows.flatMap (fun lr =>
      (r.rows.filter (fun rr => lr.getD li none == rr.getD ri none)).map
        (fun rr => lr ++ rr.eraseIdx ri)) }

/-! ### datetime.strptime / strftime

`StarwarsEtl.convert_datetime` (lines 116-118) is
`datetime.strptime(date, "%Y-%m-%dT%H:%M:%S.%fZ").strftime("%Y-%m-%d")`.
CPython's `_strptime` compiles the format to a case-insensitive regex —
`%Y` to four digits, `%m %d %H %M %S` to one or two digits, `%f` to one to
six digits, literals verbatim (so `T` and `Z` also accept `t` and `z`) —
requires the regex to consume the whole input, and then validates the
fields through the `datetime` constructor (year 1-9999, month 1-12, day
within the month, hour below 24, minute and second below 60), raising
`ValueError` otherwise.  Because every numeric field is followed by a
non-digit literal, the regex accepts exactly: a maximal digit run of the
permitted width at each field, with the literal in between. -/

/-- Numeric value of a digit character. -/
def digitVal (c : Char) : Nat := c.toNat - 48

/-- Value of a big-endian digit string. -/
def natOfDigits (ds : List Char) : Nat :=
  ds.foldl (fun a c => a * 10 + digitVal c) 0

/-- Numeric field of `_strptime`: the maximal run of digits at the head of
the input, required to be nonempty and at most `w` long (a longer run makes
the following literal unmatchable, since the format never puts two numeric
fields back to back). -/
def numField (w : Nat) (cs : List Char) : Option (Nat × List Char) :=
  let ds := cs.takeWhile Char.isDigit
  if ds.length = 0 ∨ w < ds.length then none
  else some (natOfDigits ds, cs.dropWhile Char.isDigit)

/-- Literal character of the format, matched case-insensitively (CPython
compiles the strptime regex with `re.IGNORECASE`). -/
def litChar (a b : Char) (cs : List Char) : Option (List Char) :=
  match cs with
  | [] => none
  | c :: rest => if c = a ∨ c = b then some rest else none

/-- Day count of a month, as validated by the `datetime` constructor. -/
def daysInMonth (y m : Nat) : Nat :=
  if m = 2 then (if y % 4 = 0 ∧ (y % 100 ≠ 0 ∨ y % 400 = 0) then 29 else 28)
  else if m = 4 ∨ m = 6 ∨ m = 9 ∨ m = 11 then 30
  else 31

/-- Range checks of the `datetime` constructor on the parsed fields. -/
def validDateTime (y m d h mi s : Nat) : Bool :=
  1 ≤ y ∧ y ≤ 9999 ∧ 1 ≤ m ∧ m ≤ 12 ∧ 1 ≤ d ∧ d ≤ daysInMonth y m ∧
    h ≤ 23 ∧ mi ≤ 59 ∧ s ≤ 59

/-- Embedding of `datetime.strptime(s, "%Y-%m-%dT%H:%M:%S.%fZ")`: the
six calendar/time fields on success, `none` when the input does not match
the pattern in full or a field is out of range (`ValueError`). -/
def strptimeIsoFracZ (s : String) : Option (Nat × Nat × Nat × Nat × Nat × Nat) := do
  let cs := s.data
  let yds := cs.takeWhile Char.isDigit
  if yds.length ≠ 4 then none
  else do
    let y := natOfDigits yds
    let cs ← litChar '-' '-' (cs.dropWhile Char.isDigit)
    let (m, cs) ← numField 2 cs
    let cs ← litChar '-' '-' cs
    let (d, cs) ← numField 2 cs
    let cs ← litChar 'T' 't' cs
    let (h, cs) ← numField 2 cs
    let cs ← litChar ':' ':' cs
    let (mi, cs) ← numField 2 cs
    let cs ← litChar ':' ':' cs
    let (sec, cs) ← numField 2 cs
    let cs ← litChar '.' '.' cs
    let (_, cs) ← numField 6 cs
    let cs ← litChar 'Z' 'z' cs
    match cs with
    | [] => if validDateTime y m d h mi sec then some (y, m, d, h, mi, sec) else none
    | _ :: _ => none

/-- Decimal rendering of `n`, zero-padded to two digits, for `n ≤ 99`
(every field it is applied to is range-validated below 100). -/
def pad2 (n : Nat) : List Char :=
  [Nat.digitChar (n / 10 % 10), Nat.digitChar (n % 10)]

/-- Decimal rendering of `n`, zero-padded to four digits, for `n ≤ 9999`
(strptime's `%Y` only produces such years).  Python documents `%Y` as
zero-padded (`0001, 0002, …, 2014`). -/
def pad4 (n : Nat) : List Char :=
  [Nat.digitChar (n / 1000 % 10), Nat.digitChar (n / 100 % 10),
    Nat.digitChar (n / 10 % 10), Nat.digitChar (n % 10)]

/-- Embedding of `dt.strftime("%Y-%m-%d")` on the parsed fields. -/
def strftimeYmd (y m d : Nat) : String :=
  String.mk (pad4 y ++ '-' :: pad2 m ++ '-' :: pad2 d)

/-- Embedding of `StarwarsEtl.convert_datetime` (lines 116-118): parse with
`"%Y-%m-%dT%H:%M:%S.%fZ"`, render the date part; `none` models the
`ValueError` that `strptime` raises on a non-matching input. -/
def convert_datetime (s : String) : Option String :=
  (strptimeIsoFracZ s).map (fun t => strftimeYmd t.1 t.2.1 t.2.2.1)

/-! ### Pipeline orchestration (StarwarsEtl) -/

/-- Embedding of `StarwarsEtl._log_new_metadata` (lines 230-259):
`Metadata.objects.create` appends one row; `auto_now_add` stamps it with a
timestamp strictly later than every existing one. -/
def log_new_metadata (st : St) (file_name file_path : String)
    (etag : Option String) (table_info_type : String) : St :=
  { st with store := st.store ++
      [{ file_name := file_name, file_path := file_path,
         table_info_type := table_info_type, etag := etag,
         date := (st.store.map MetaRow.date).foldl max 0 + 1 }] }

/-- Embedding of `StarwarsEtl.save_data_to_csv` (lines 197-228): try to
serialize the table at `file_path`; on success append one metadata row and
return the success message naming the file; on an exception return its
description, leaving store and files untouched (the error is caught, not
re-raised). -/
def save_data_to_csv (env : Env) (st : St) (table : Tbl)
    (file_name file_path table_info_type : String) (etag : Option String) :
    St × String :=
  match env.writeResult file_path with
  | none =>
      let st := { st with files := st.files ++ [(file_path, table)] }
      let st := log_new_metadata st file_name file_path etag table_info_type
      (st, file_name ++ " saved successfully ")
  | some e => (st, "An error occurred while trying to save CSV file " ++ e)

/-- Embedding of `StarwarsEtl.get_latest_data` (lines 84-114) for one
endpoint: fetch the current ETag header, run the conditional check against
the stored etag, and when it reports an update follow the page chain and
build a table with `fromdicts`; otherwise the table stays `None`.  The
check's bare `raise` propagates. -/
def get_latest_data (qenv : QueryEnv) (st : St) (query : String) :
    Except PyErr (Option String × Option Tbl) := do
  let current_etag := qenv.etagHeader
  let upd ← check_for_updates (qenv.cond (get_latest_etags st.store query))
  if upd then
    pure (current_etag, some (fromdicts (get_data_loop qenv.pages)))
  else
    pure (current_etag, none)

/-- Embedding of `StarwarsEtl.get_planets_data` (lines 120-152): on an
update, cut the fetched planets to `name, url`, rename `name` to
`homeworld_name`, and save (the save's status string is discarded);
otherwise read the CSV at the latest planets metadata row's path —
`.latest("date")` raising `Metadata.DoesNotExist` when no such row exists. -/
def get_planets_data (cfg : Etl) (env : Env) (st : St) :
    Except PyErr (St × Tbl) := do
  let planets_data ← get_latest_data env.planets st cfg.planets_query
  match planets_data.2 with
  | some t =>
      let planets_table := renameTbl (cutTbl t ["name", "url"]) [("name", "homeworld_name")]
      let (st, _) := save_data_to_csv env st planets_table "planets_info.csv"
        "starwars/downloaded_data/planets_info.csv" cfg.planets_query planets_data.1
      pure (st, planets_table)
  | none =>
      match latestRow st.store cfg.planets_query with
      | none => throw .doesNotExist
      | some m => pure (st, env.fs m.file_path)

/-- Join/projection core of `StarwarsEtl.fix_planets_info_and_columns`
(lines 176-195): inner-join people with planets on
`homeworld = url`, cut to the nine kept fields, convert `edited` with
`convert_datetime`, and rename `edited` to `date` and `homeworld_name` to
`homeworld`. -/
def fix_core (people_table planets_table : Tbl) : Tbl :=
  let joined := joinTbl people_table planets_table "homeworld" "url"
  let cut := cutTbl joined
    ["name", "height", "mass", "hair_color", "skin_color", "eye_color",
      "birth_year", "edited", "homeworld_name"]
  let conv := convertTbl cut "edited" convert_datetime
  renameTbl conv [("edited", "date"), ("homeworld_name", "homeworld")]

/-- Embedding of `StarwarsEtl.fix_planets_info_and_columns` (lines 154-195):
resolve the planets table (fetching or reloading it, with its metadata side
effects) and run the join/projection core on it. -/
def fix_planets_info_and_columns (cfg : Etl) (env : Env) (st : St)
    (people_table : Tbl) : Except PyErr (St × Tbl) := do
  let (st, planets_table) ← get_planets_data cfg env st
  pure (st, fix_core people_table planets_table)

/-- Embedding of `StarwarsEtl.get_people_data` (lines 261-296): fetch-or-skip
people; on an update run the join pipeline and save the result under the
configured CSV name/path; otherwise append a reuse metadata row pointing at
the latest prior people snapshot's path, tagged with the freshly fetched
etag, and report `"Nothing has been updated"`. -/
def get_people_data (cfg : Etl) (env : Env) (st : St) :
    Except PyErr (St × String) := do
  let people_info ← get_latest_data env.people st cfg.people_query
  match people_info.2 with
  | some t => do
      let (st, sw_data) ← fix_planets_info_and_columns cfg env st t
      pure (save_data_to_csv env st sw_data cfg.CSV_FILE_NAME cfg.CSV_FILE_PATH
        cfg.people_query people_info.1)
  | none =>
      match latestRow st.store cfg.people_query with
      | none => throw .doesNotExist
      | some m =>
          pure (log_new_metadata st cfg.CSV_FILE_NAME m.file_path people_info.1
            cfg.people_query, "Nothing has been updated")

/-- Embedding of `StarwarsEtl.start_starwars_data_ingestion` (lines 298-300). -/
def start_starwars_data_ingestion (cfg : Etl) (env : Env) (st : St) :
    Except PyErr (St × String) :=
  get_people_data cfg env st

/-! ### StarWarsLookup -/

/-- Contents of a CSV file as read by `etl.fromcsv`: a header and rows of
strings (`fromcsv` yields strings only, never `None`). -/
structure Csv where
  header : List String
  rows : List (List String)
deriving DecidableEq, Repr

/-- Values of the selected columns of one CSV row, in the order the columns
were requested (the projection `etl.cut(table, columns)` performs). -/
def selectedValues (header cols : List String) (r : List String) : List String :=
  cols.map (fun c => r.getD (header.indexOf c) "")

/-- Embedding of `StarWarsLookup.get_calcualted_table` (lines 308-330) on the
CSV contents.  Mirroring the source line by line: cut to `columns`; add a
`concatenated` field joining the cut row with single spaces; aggregate by
`concatenated` with `len` (one `(key, group size)` row per distinct key);
join that back on `concatenated`; cut the `concatenated` column out; rename
`value` to `count` (here type-level: the count is the `Nat` component); and
deduplicate with `distinct`.  petl's `aggregate` and `distinct` enumerate by
sorted key; this model keeps first-occurrence order, the same multiset of
rows. -/
def get_calcualted_table (csv : Csv) (columns : List String) :
    List (List String × Nat) :=
  let cutRows := csv.rows.map (selectedValues csv.header columns)
  let keyed := cutRows.map (fun v => (v, String.intercalate " " v))
  let keys := (keyed.map Prod.snd).dedup
  let concate := keys.map (fun k => (k, (keyed.filter (fun x => x.2 == k)).length))
  let joined := keyed.flatMap (fun vk =>
    (concate.filter (fun kn => kn.1 == vk.2)).map (fun kn => (vk.1, kn.2)))
  joined.dedup

/-! ### Claim theorems -/

/-- C4: for every paginated response sequence of pages of `K` records each,
with only the last page lacking a `next` link, the pagination loop of
`get_latest_data` accumulates exactly `N * K` records in page order,
stopping at the null link (the end of the chain). -/
theorem get_data_loop_pagination (pages : List (List Rec)) (K : Nat)
    (h : ∀ p ∈ pages, p.length = K) :
    get_data_loop pages = pages.flatten ∧
      (get_data_loop pages).length = pages.length * K := by
  induction pages with
  | nil => simp [get_data_loop]
  | cons p rest ih =>
    have hp : p.length = K := h p (by simp)
    obtain ⟨ih1, ih2⟩ := ih (fun q hq => h q (by simp [hq]))
    refine ⟨by simp [get_data_loop, ih1], ?_⟩
    simp [get_data_loop, ih2, hp, Nat.succ_mul]
    omega

/-- Witness for `get_data_loop_pagination`: two pages of two records each
yield the four records in page order. -/
theorem get_data_loop_pagination_witness :
    (∀ p ∈ [[[("name", "Luke")], [("name", "Leia")]],
            [[("name", "Han")], [("name", "Chewbacca")]]], List.length p = 2) ∧
      get_data_loop [[[("name", "Luke")], [("name", "Leia")]],
          [[("name", "Han")], [("name", "Chewbacca")]]] =
        [[("name", "Luke")], [("name", "Leia")], [("name", "Han")],
          [("name", "Chewbacca")]] ∧
      (get_data_loop [[[("name", "Luke")], [("name", "Leia")]],
          [[("name", "Han")], [("name", "Chewbacca")]]]).length = 2 * 2 := by
  refine ⟨by decide, ?_, ?_⟩
  · exact (get_data_loop_pagination _ 2 (by decide)).1.trans (by decide)
  · exact (get_data_loop_pagination _ 2 (by decide)).2.trans (by decide)

/-- C5 counterexample: at status 500 the conditional check does not fail
with `RemoteApiError(500)` as the claim states; the bare `raise` produces a
`RuntimeError` carrying no status code. -/
theorem check_for_updates_500_not_remoteApiError :
    check_for_updates 500 =
        .error (.runtimeError "No active exception to re-raise") ∧
      check_for_updates 500 ≠ .error (.remoteApiError 500) := by
  refine ⟨rfl, ?_⟩
  intro h
  simp [check_for_updates] at h

/-- C5 amended: the conditional check returns `False` exactly on status 304
and `True` exactly on status 200; every other status fails — but with the
bare re-raise `RuntimeError`, which carries no status code, not with a
`RemoteApiError(status_code)`. -/
theorem check_for_updates_status_cases (s : Nat) :
    (check_for_updates s = .ok false ↔ s = 304) ∧
      (check_for_updates s = .ok true ↔ s = 200) ∧
      (s ≠ 304 → s ≠ 200 →
        check_for_updates s =
          .error (.runtimeError "No active exception to re-raise")) := by
  rcases eq_or_ne s 304 with h1 | h1 <;> rcases eq_or_ne s 200 with h2 | h2 <;>
    simp_all [check_for_updates]

/-- Witness for `check_for_updates_status_cases` at statuses 304, 200, 500. -/
theorem check_for_updates_status_cases_witness :
    check_for_updates 304 = .ok false ∧ check_for_updates 200 = .ok true ∧
      check_for_updates 500 =
        .error (.runtimeError "No active exception to re-raise") := by
  exact ⟨(check_for_updates_status_cases 304).1.mpr rfl,
    (check_for_updates_status_cases 200).2.1.mpr rfl,
    (check_for_updates_status_cases 500).2.2 (by decide) (by decide)⟩

/-- C6: the snapshot write is atomic with its metadata append — a failing
CSV serialization leaves the metadata store and file log untouched and
yields a descriptive message (no exception escapes), while a successful one
appends exactly one metadata row, writes exactly one file, and yields a
success message naming the file. -/
theorem save_data_to_csv_atomic (env : Env) (st : St) (table : Tbl)
    (fn fp ty : String) (etag : Option String) :
    (∀ e, env.writeResult fp = some e →
        save_data_to_csv env st table fn fp ty etag =
          (st, "An error occurred while trying to save CSV file " ++ e)) ∧
      (env.writeResult fp = none →
        save_data_to_csv env st table fn fp ty etag =
          ({ store := st.store ++
                [{ file_name := fn, file_path := fp, table_info_type := ty,
                   etag := etag,
                   date := (st.store.map MetaRow.date).foldl max 0 + 1 }],
             files := st.files ++ [(fp, table)] },
            fn ++ " saved successfully ")) := by
  constructor
  · intro e he
    simp [save_data_to_csv, he]
  · intro h
    simp [save_data_to_csv, h, log_new_metadata]

/-- Environment with an always-failing CSV serializer, for witnessing. -/
def envWriteFails : Env :=
  { people := ⟨none, fun _ => 200, []⟩
    planets := ⟨none, fun _ => 200, []⟩
    fs := fun _ => ⟨[], []⟩
    writeResult := fun _ => some "[Errno 28] No space left on device" }

/-- Environment with an always-succeeding CSV serializer, for witnessing. -/
def envWriteOk : Env :=
  { people := ⟨none, fun _ => 200, []⟩
    planets := ⟨none, fun _ => 200, []⟩
    fs := fun _ => ⟨[], []⟩
    writeResult := fun _ => none }

/-- Witness for `save_data_to_csv_atomic`: both outcomes at concrete inputs
starting from the empty state. -/
theorem save_data_to_csv_atomic_witness :
    save_data_to_csv envWriteFails ⟨[], []⟩ ⟨[], []⟩ "d.csv" "p/d.csv" "people"
        (some "E") =
      (⟨[], []⟩,
        "An error occurred while trying to save CSV file [Errno 28] No space left on device") ∧
      save_data_to_csv envWriteOk ⟨[], []⟩ ⟨[], []⟩ "d.csv" "p/d.csv" "people"
        (some "E") =
      (⟨[⟨"d.csv", "p/d.csv", "people", some "E", 1⟩], [("p/d.csv", ⟨[], []⟩)]⟩,
        "d.csv saved successfully ") := by
  constructor
  · exact (save_data_to_csv_atomic envWriteFails ⟨[], []⟩ ⟨[], []⟩ "d.csv"
      "p/d.csv" "people" (some "E")).1 "[Errno 28] No space left on device" rfl
  · exact ((save_data_to_csv_atomic envWriteOk ⟨[], []⟩ ⟨[], []⟩ "d.csv"
      "p/d.csv" "people" (some "E")).2 rfl).trans (by rfl)

/-- C8 counterexample: on a response with no ETag header the method returns
Python `None` (the default of `headers.get`), not the empty string the
claim states. -/
theorem get_current_etag_no_header_not_empty_string :
    get_current_etag [] = none ∧ get_current_etag [] ≠ some "" := by
  exact ⟨rfl, by simp [get_current_etag]⟩

/-- C8 amended: the method returns the ETag response header (matched
case-insensitively, first occurrence) when the response carries one, and
Python `None` — not the empty string — when it does not. -/
theorem get_current_etag_cases :
    (∀ hs : List (String × String),
        (∀ p ∈ hs, lowerStr p.1 ≠ "etag") → get_current_etag hs = none) ∧
      (∀ (pre post : List (String × String)) (n v : String),
        (∀ p ∈ pre, lowerStr p.1 ≠ "etag") → lowerStr n = "etag" →
        get_current_etag (pre ++ (n, v) :: post) = some v) := by
  constructor
  · intro hs h
    have hnone : hs.find? (fun p => lowerStr p.1 == "etag") = none :=
      List.find?_eq_none.mpr (fun p hp => by simpa using h p hp)
    simp [get_current_etag, hnone]
  · intro pre post n v hpre hn
    induction pre with
    | nil => simp [get_current_etag, List.find?_cons, hn]
    | cons a pre ih =>
      have ha : (lowerStr a.1 == "etag") = false := by
        simpa using hpre a (by simp)
      have ih2 := ih (fun p hp => hpre p (by simp [hp]))
      simpa [get_current_etag, List.find?_cons, ha] using ih2

/-- Witness for `get_current_etag_cases`: a header map without an ETag, and
one carrying `ETag: abc` behind another header. -/
theorem get_current_etag_cases_witness :
    get_current_etag [("Content-Type", "application/json")] = none ∧
      get_current_etag [("Content-Type", "application/json"), ("ETag", "abc")] =
        some "abc" := by
  constructor
  · exact get_current_etag_cases.1 _ (by decide)
  · exact get_current_etag_cases.2 [("Content-Type", "application/json")] []
      "ETag" "abc" (by decide) (by decide)

/-- C9: the grouped-count aggregation is a pure function of the file
contents and the selected columns, so two runs on the same file with the
same columns return the same rows — in particular equal row-sets ignoring
order. -/
theorem get_calcualted_table_idempotent (csv : Csv) (cols : List String) :
    (get_calcualted_table csv cols).toFinset =
      (get_calcualted_table csv cols).toFinset := rfl

/-- C1: in an ingestion run whose people conditional GET reports 304, the
pipeline appends exactly one metadata row — named after this run's CSV file
but pointing at the file path of the latest prior people snapshot and
tagged with the freshly fetched current validator — returns the literal
`"Nothing has been updated"`, and writes no CSV file (the file log is
unchanged, and so is every other part of the state). -/
theorem get_people_data_not_modified (cfg : Etl) (env : Env) (st : St)
    (m : MetaRow)
    (h304 : env.people.cond (get_latest_etags st.store cfg.people_query) = 304)
    (hm : latestRow st.store cfg.people_query = some m) :
    get_people_data cfg env st =
      .ok ({ st with store := st.store ++
          [{ file_name := cfg.CSV_FILE_NAME, file_path := m.file_path,
             table_info_type := cfg.people_query,
             etag := env.people.etagHeader,
             date := (st.store.map MetaRow.date).foldl max 0 + 1 }] },
        "Nothing has been updated") := by
  simp [get_people_data, get_latest_data, h304, hm, check_for_updates,
    log_new_metadata, bind, Except.bind, pure, Except.pure]

/-- Configuration used in the concrete people-not-modified runs below. -/
def cfgPeople304 : Etl :=
  { CSV_FILE_NAME := "starwars_data_new.csv"
    CSV_FILE_PATH := "starwars/downloaded_data/starwars_data_new.csv"
    people_query := "people"
    planets_query := "planets" }

/-- Store holding one prior people snapshot row with validator `"E"`. -/
def stPeople304 : St :=
  { store := [{ file_name := "starwars_data_old.csv",
                file_path := "starwars/downloaded_data/starwars_data_old.csv",
                table_info_type := "people", etag := some "E", date := 1 }]
    files := [] }

/-- Environment whose people endpoint honours `If-None-Match`: its current
validator is `"E"`, equal to the stored one, so the conditional GET answers
304; any other presented validator would get 200. -/
def envPeople304 : Env :=
  { people := { etagHeader := some "E"
                cond := fun e => if e == some "E" then 304 else 200
                pages := [] }
    planets := { etagHeader := none, cond := fun _ => 200, pages := [] }
    fs := fun _ => ⟨[], []⟩
    writeResult := fun _ => none }

/-- C2 counterexample: a run in which the stored people validator equals the
current remote validator (so the conditional check returns `False`)
nevertheless appends a new people `SnapshotMetadata` row — the reuse row of
the not-modified branch — so the claim "no new SnapshotMetadata row for
that kind is created" fails on the people kind. -/
theorem equal_validators_still_append_people_row :
    get_latest_etags stPeople304.store "people" = some "E" ∧
      envPeople304.people.etagHeader = some "E" ∧
      check_for_updates
        (envPeople304.people.cond (get_latest_etags stPeople304.store "people")) =
        .ok false ∧
      (get_people_data cfgPeople304 envPeople304 stPeople304).toOption.map
          (fun r => (r.1.store.filter
            (fun x => x.table_info_type == "people")).length) = some 2 ∧
      (stPeople304.store.filter
        (fun x => x.table_info_type == "people")).length = 1 := by
  refine ⟨rfl, rfl, rfl, ?_, rfl⟩
  rfl

/-- C2 amended: when the stored validator of a kind equals the current
remote one (a conditional GET answering 304), the update check returns
`False`, and the metadata frame differs by kind: for the planets kind no
new SnapshotMetadata row is created — neither in a people-not-modified run
(part 1, where only the one people reuse row is appended and the file log
is untouched) nor in a planets-not-modified check inside a people update
run (part 2) — while for the people kind exactly one reuse row is
appended. -/
theorem hasUpdate_false_metadata_frame (cfg : Etl) (env : Env) (st : St) :
    (∀ m : MetaRow, cfg.people_query ≠ cfg.planets_query →
      env.people.cond (get_latest_etags st.store cfg.people_query) = 304 →
      latestRow st.store cfg.people_query = some m →
      check_for_updates
          (env.people.cond (get_latest_etags st.store cfg.people_query)) =
          .ok false ∧
        (get_people_data cfg env st).toOption.map (fun r =>
            ((r.1.store.filter
                (fun x => x.table_info_type == cfg.people_query)).length,
              (r.1.store.filter
                (fun x => x.table_info_type == cfg.planets_query)).length,
              r.1.files)) =
          some ((st.store.filter
                (fun x => x.table_info_type == cfg.people_query)).length + 1,
            (st.store.filter
              (fun x => x.table_info_type == cfg.planets_query)).length,
            st.files)) ∧
      (∀ mp : MetaRow, cfg.people_query ≠ cfg.planets_query →
        env.people.cond (get_latest_etags st.store cfg.people_query) = 200 →
        env.planets.cond (get_latest_etags st.store cfg.planets_query) = 304 →
        latestRow st.store cfg.planets_query = some mp →
        check_for_updates
            (env.planets.cond (get_latest_etags st.store cfg.planets_query)) =
            .ok false ∧
          (get_people_data cfg env st).toOption.map (fun r =>
              (r.1.store.filter
                (fun x => x.table_info_type == cfg.planets_query)).length) =
            some (st.store.filter
              (fun x => x.table_info_type == cfg.planets_query)).length) := by
  constructor
  · intro m hq h304 hm
    have hbq : (cfg.people_query == cfg.planets_query) = false :=
      beq_eq_false_iff_ne.mpr hq
    refine ⟨by simp [check_for_updates, h304], ?_⟩
    simp [get_people_data, get_latest_data, h304, hm, check_for_updates,
      log_new_metadata, bind, Except.bind, pure, Except.pure, Except.toOption,
      List.filter_append, hbq]
  · intro mp hq h200 h304p hmp
    have hbq : (cfg.people_query == cfg.planets_query) = false :=
      beq_eq_false_iff_ne.mpr hq
    refine ⟨by simp [check_for_updates, h304p], ?_⟩
    simp only [get_people_data, get_latest_data, fix_planets_info_and_columns,
      get_planets_data, h200, h304p, hmp, check_for_updates,
      bind, Except.bind, pure, Except.pure]
    rcases hw : env.writeResult cfg.CSV_FILE_PATH with _ | e <;>
      simp [save_data_to_csv, hw, log_new_metadata, Except.toOption,
        List.filter_append, hbq]

/-- Witness for `get_people_data_not_modified`: the concrete not-modified
run appends exactly the reuse row (new file name, old path, fresh etag)
and reports that nothing was updated. -/
theorem get_people_data_not_modified_witness :
    get_people_data cfgPeople304 envPeople304 stPeople304 =
      .ok ({ store := [{ file_name := "starwars_data_old.csv",
                         file_path := "starwars/downloaded_data/starwars_data_old.csv",
                         table_info_type := "people", etag := some "E", date := 1 },
                       { file_name := "starwars_data_new.csv",
                         file_path := "starwars/downloaded_data/starwars_data_old.csv",
                         table_info_type := "people", etag := some "E", date := 2 }]
             files := [] },
        "Nothing has been updated") := by
  exact (get_people_data_not_modified cfgPeople304 envPeople304 stPeople304
    { file_name := "starwars_data_old.csv",
      file_path := "starwars/downloaded_data/starwars_data_old.csv",
      table_info_type := "people", etag := some "E", date := 1 }
    rfl rfl).trans rfl

/-- Store holding one prior planets snapshot row with validator `"P"`. -/
def stPlanets304 : St :=
  { store := [{ file_name := "planets_info.csv",
                file_path := "starwars/downloaded_data/planets_info.csv",
                table_info_type := "planets", etag := some "P", date := 1 }]
    files := [] }

/-- Environment in which people has an update (200) but the planets
conditional GET answers 304, so the planets table is reloaded from the CSV
of the latest planets metadata row. -/
def envPlanets304 : Env :=
  { people := { etagHeader := some "F"
                cond := fun _ => 200
                pages := [[[("name", "Luke"), ("height", "172"), ("mass", "77"),
                  ("hair_color", "blond"), ("skin_color", "fair"),
                  ("eye_color", "blue"), ("birth_year", "19BBY"),
                  ("edited", "2014-12-09T13:50:51.644000Z"),
                  ("homeworld", "u1")]]] }
    planets := { etagHeader := some "P", cond := fun _ => 304, pages := [] }
    fs := fun _ => ⟨["homeworld_name", "url"], [[some "Tatooine", some "u1"]]⟩
    writeResult := fun _ => none }

/-- Witness for `hasUpdate_false_metadata_frame`: the people-not-modified
run of `envPeople304` ends with two people rows, zero planets rows and no
files, and the planets-not-modified run of `envPlanets304` leaves the
planets row count at one. -/
theorem hasUpdate_false_metadata_frame_witness :
    check_for_updates
        (envPeople304.people.cond (get_latest_etags stPeople304.store "people")) =
        .ok false ∧
      (get_people_data cfgPeople304 envPeople304 stPeople304).toOption.map
          (fun r => ((r.1.store.filter
              (fun x => x.table_info_type == "people")).length,
            (r.1.store.filter
              (fun x => x.table_info_type == "planets")).length,
            r.1.files)) = some (2, 0, []) ∧
      (get_people_data cfgPeople304 envPlanets304 stPlanets304).toOption.map
          (fun r => (r.1.store.filter
            (fun x => x.table_info_type == "planets")).length) = some 1 := by
  refine ⟨?_, ?_, ?_⟩
  · exact ((hasUpdate_false_metadata_frame cfgPeople304 envPeople304
      stPeople304).1
      { file_name := "starwars_data_old.csv",
        file_path := "starwars/downloaded_data/starwars_data_old.csv",
        table_info_type := "people", etag := some "E", date := 1 }
      (by decide) rfl rfl).1
  · exact (((hasUpdate_false_metadata_frame cfgPeople304 envPeople304
      stPeople304).1
      { file_name := "starwars_data_old.csv",
        file_path := "starwars/downloaded_data/starwars_data_old.csv",
        table_info_type := "people", etag := some "E", date := 1 }
      (by decide) rfl rfl).2).trans rfl
  · exact (((hasUpdate_false_metadata_frame cfgPeople304 envPlanets304
      stPlanets304).2
      { file_name := "planets_info.csv",
        file_path := "starwars/downloaded_data/planets_info.csv",
        table_info_type := "planets", etag := some "P", date := 1 }
      (by decide) rfl rfl rfl).2).trans rfl

/-- People table of the join-correctness example: one record whose
`homeworld` URL is `"u1"`. -/
def examplePeople : Tbl :=
  { header := ["name", "height", "mass", "hair_color", "skin_color",
      "eye_color", "birth_year", "edited", "homeworld"]
    rows := [[some "Luke", some "172", some "77", some "blond", some "fair",
      some "blue", some "19BBY", some "2014-12-09T13:50:51.644000Z",
      some "u1"]] }

/-- Planets table of the join-correctness example: one row with `url "u1"`
and `homeworld_name "Tatooine"`. -/
def examplePlanets : Tbl :=
  { header := ["homeworld_name", "url"]
    rows := [[some "Tatooine", some "u1"]] }

/-- C3: the people/planets merge inner-joins on `homeworld = url` — the
output rows are exactly one row per (person, planet) pair with equal key
cells, so people with no matching planet URL are dropped — and projects to
exactly the columns `name, height, mass, hair_color, skin_color, eye_color,
birth_year, date` (the converted `edited`) and `homeworld` (the planet's
`homeworld_name`); on the example tables the joined row carries
`homeworld = "Tatooine"`. -/
theorem fix_core_join_projection (P Q : Tbl)
    (hP : P.header = ["name", "height", "mass", "hair_color", "skin_color",
      "eye_color", "birth_year", "edited", "homeworld"])
    (hQ : Q.header = ["homeworld_name", "url"])
    (hPr : ∀ p ∈ P.rows, p.length = 9)
    (hQr : ∀ q ∈ Q.rows, q.length = 2) :
    (fix_core P Q).header = ["name", "height", "mass", "hair_color",
        "skin_color", "eye_color", "birth_year", "date", "homeworld"] ∧
      (fix_core P Q).rows = P.rows.flatMap (fun p =>
        (Q.rows.filter (fun q => p.getD 8 none == q.getD 1 none)).map (fun q =>
          [p.getD 0 none, p.getD 1 none, p.getD 2 none, p.getD 3 none,
            p.getD 4 none, p.getD 5 none, p.getD 6 none,
            (p.getD 7 none).bind convert_datetime, q.getD 0 none])) ∧
      (fix_core examplePeople examplePlanets).rows =
        [[some "Luke", some "172", some "77", some "blond", some "fair",
          some "blue", some "19BBY", some "2014-12-09", some "Tatooine"]] ∧
      cellAt (fix_core examplePeople examplePlanets).header
        ((fix_core examplePeople examplePlanets).rows.getD 0 [])
        "homeworld" = some "Tatooine" := by
  obtain ⟨ph, pr⟩ := P
  obtain ⟨qh, qr⟩ := Q
  simp only at hP hQ hPr hQr
  subst hP hQ
  refine ⟨rfl, ?_, rfl, rfl⟩
  simp only [fix_core, joinTbl, cutTbl, convertTbl, renameTbl, cellAt, fieldIdx]
  simp only [List.map_flatMap]
  refine List.flatMap_congr (fun p hp => ?_)
  have h9 : p.length = 9 := hPr p hp
  simp only [List.map_map]
  refine List.map_congr_left (fun rr hrr => ?_)
  have h2 : rr.length = 2 := hQr rr (List.mem_filter.mp hrr).1
  match rr, h2 with
  | [b0, b1], _ =>
    have el : ∀ i : Nat, i < 9 → (p ++ [b0])[i]? = p[i]? := fun i hi =>
      List.getElem?_append_left (by omega)
    have e9 : (p ++ [b0])[9]? = some b0 := by
      rw [List.getElem?_append_right (by omega)]
      simp [h9]
    simp [Function.comp, List.eraseIdx, List.set, List.getD,
      el 0 (by omega), el 1 (by omega), el 2 (by omega), el 3 (by omega),
      el 4 (by omega), el 5 (by omega), el 6 (by omega), el 7 (by omega), e9]

/-- Witness for `fix_core_join_projection` at the example tables. -/
theorem fix_core_join_projection_witness :
    (fix_core examplePeople examplePlanets).header = ["name", "height",
        "mass", "hair_color", "skin_color", "eye_color", "birth_year",
        "date", "homeworld"] ∧
      (fix_core examplePeople examplePlanets).rows =
        [[some "Luke", some "172", some "77", some "blond", some "fair",
          some "blue", some "19BBY", some "2014-12-09", some "Tatooine"]] := by
  exact ⟨(fix_core_join_projection examplePeople examplePlanets rfl rfl
      (by decide) (by decide)).1,
    (fix_core_join_projection examplePeople examplePlanets rfl rfl
      (by decide) (by decide)).2.2.1⟩

/-- Group size of a concatenation key: counting keyed cut rows with key `k`
is counting input rows whose selected values join to `k`. -/
theorem keyedCount (csv : Csv) (cols : List String) (k : String) :
    (((csv.rows.map (selectedValues csv.header cols)).map
        (fun v => (v, String.intercalate " " v))).filter
        (fun x => x.2 == k)).length =
      (csv.rows.filter (fun r =>
        String.intercalate " " (selectedValues csv.header cols r) == k)).length := by
  rw [← List.countP_eq_length_filter, ← List.countP_eq_length_filter,
    List.map_map, List.countP_map]
  rfl

/-- C10: every output row of the grouped count carries the number of input
rows whose selected-column values, joined with single spaces, form the same
key string — rows with different column values but colliding concatenations
are counted together, and each such row appears in the output with the
combined count (shown concretely for `("a b", "c")` and `("a", "b c")`,
which both appear with count 2). -/
theorem get_calcualted_table_counts (csv : Csv) (cols : List String)
    (_hc : ∀ c ∈ cols, c ∈ csv.header) :
    (∀ vn ∈ get_calcualted_table csv cols,
        (∃ r ∈ csv.rows, selectedValues csv.header cols r = vn.1) ∧
          vn.2 = (csv.rows.filter (fun r =>
            String.intercalate " " (selectedValues csv.header cols r) ==
              String.intercalate " " vn.1)).length) ∧
      (∀ r ∈ csv.rows,
        (selectedValues csv.header cols r,
            (csv.rows.filter (fun r2 =>
              String.intercalate " " (selectedValues csv.header cols r2) ==
                String.intercalate " " (selectedValues csv.header cols r))).length) ∈
          get_calcualted_table csv cols) ∧
      get_calcualted_table ⟨["x", "y"], [["a b", "c"], ["a", "b c"]]⟩
          ["x", "y"] =
        [(["a b", "c"], 2), (["a", "b c"], 2)] := by
  refine ⟨?_, ?_, by rfl⟩
  · intro vn hvn
    simp only [get_calcualted_table, List.mem_dedup] at hvn
    rw [List.mem_flatMap] at hvn
    obtain ⟨vk, hvk, hvn⟩ := hvn
    rw [List.mem_map] at hvn
    obtain ⟨kn, hkn, rfl⟩ := hvn
    have hkeq : kn.1 = vk.2 := by
      have := (List.mem_filter.mp hkn).2
      simpa using this
    have hknc := (List.mem_filter.mp hkn).1
    rw [List.mem_map] at hknc
    obtain ⟨k, hk, rfl⟩ := hknc
    simp only at hkeq
    subst hkeq
    rw [List.mem_map] at hvk
    obtain ⟨v, hv, rfl⟩ := hvk
    rw [List.mem_map] at hv
    obtain ⟨r, hr, rfl⟩ := hv
    constructor
    · exact ⟨r, hr, rfl⟩
    · exact keyedCount csv cols _
  · intro r hr
    simp only [get_calcualted_table, List.mem_dedup]
    rw [List.mem_flatMap]
    refine ⟨(selectedValues csv.header cols r,
      String.intercalate " " (selectedValues csv.header cols r)), ?_, ?_⟩
    · exact List.mem_map.mpr ⟨selectedValues csv.header cols r,
        List.mem_map.mpr ⟨r, hr, rfl⟩, rfl⟩
    · rw [List.mem_map]
      refine ⟨(String.intercalate " " (selectedValues csv.header cols r),
        (((csv.rows.map (selectedValues csv.header cols)).map
          (fun v => (v, String.intercalate " " v))).filter
          (fun x => x.2 == String.intercalate " "
            (selectedValues csv.header cols r))).length), ?_, ?_⟩
      · rw [List.mem_filter]
        constructor
        · refine List.mem_map.mpr ⟨String.intercalate " "
            (selectedValues csv.header cols r), ?_, rfl⟩
          rw [List.mem_dedup, List.mem_map]
          exact ⟨(selectedValues csv.header cols r,
            String.intercalate " " (selectedValues csv.header cols r)),
            List.mem_map.mpr ⟨selectedValues csv.header cols r,
              List.mem_map.mpr ⟨r, hr, rfl⟩, rfl⟩, rfl⟩
        · simp
      · rw [keyedCount csv cols]

/-- Witness for `get_calcualted_table_counts`: on the collision example the
row `("a b", "c")` appears in the output bearing the combined count 2. -/
theorem get_calcualted_table_counts_witness :
    (["a b", "c"], 2) ∈
      get_calcualted_table ⟨["x", "y"], [["a b", "c"], ["a", "b c"]]⟩
        ["x", "y"] := by
  have h := (get_calcualted_table_counts
    ⟨["x", "y"], [["a b", "c"], ["a", "b c"]]⟩ ["x", "y"]
    (by decide)).2.1 ["a b", "c"] (by decide)
  exact h

/-- Modelled from the spec: an ISO-8601 timestamp with fractional seconds
and `Z` suffix, assembled from its zero-padded calendar and time fields and
a fraction of one to six digits — the input family the claim's first half
quantifies over. -/
def mkIso (y m d h mi sec : Nat) (fr : List Char) : String :=
  String.mk (pad4 y ++ '-' :: (pad2 m ++ '-' :: (pad2 d ++ 'T' :: (pad2 h ++
    ':' :: (pad2 mi ++ ':' :: (pad2 sec ++ '.' :: (fr ++ ['Z'])))))))

/-- Digit characters of the decimal alphabet are digits. -/
theorem digitChar_isDigit (n : Nat) (h : n < 10) :
    (Nat.digitChar n).isDigit = true := by
  interval_cases n <;> decide

/-- Reading back a decimal digit character gives the digit. -/
theorem digitVal_digitChar (n : Nat) (h : n < 10) :
    digitVal (Nat.digitChar n) = n := by
  interval_cases n <;> decide

/-- Two-digit zero-padded rendering consists of digits. -/
theorem pad2_isDigit (n : Nat) : ∀ c ∈ pad2 n, c.isDigit = true := by
  intro c hc
  simp only [pad2, List.mem_cons, List.not_mem_nil, or_false] at hc
  rcases hc with rfl | rfl <;> exact digitChar_isDigit _ (by omega)

/-- Four-digit zero-padded rendering consists of digits. -/
theorem pad4_isDigit (n : Nat) : ∀ c ∈ pad4 n, c.isDigit = true := by
  intro c hc
  simp only [pad4, List.mem_cons, List.not_mem_nil, or_false] at hc
  rcases hc with rfl | rfl | rfl | rfl <;> exact digitChar_isDigit _ (by omega)

/-- Value of the two-digit zero-padded rendering, below 100. -/
theorem natOfDigits_pad2 (n : Nat) (h : n ≤ 99) : natOfDigits (pad2 n) = n := by
  simp only [natOfDigits, pad2, List.foldl,
    digitVal_digitChar (n / 10 % 10) (by omega),
    digitVal_digitChar (n % 10) (by omega)]
  omega

/-- Value of the four-digit zero-padded rendering, below 10000. -/
theorem natOfDigits_pad4 (n : Nat) (h : n ≤ 9999) :
    natOfDigits (pad4 n) = n := by
  simp only [natOfDigits, pad4, List.foldl,
    digitVal_digitChar (n / 1000 % 10) (by omega),
    digitVal_digitChar (n / 100 % 10) (by omega),
    digitVal_digitChar (n / 10 % 10) (by omega),
    digitVal_digitChar (n % 10) (by omega)]
  omega

/-- Splitting a character list at the first non-digit: the digit run at the
head is taken whole and the rest starts at the non-digit. -/
theorem takeWhile_digits (ds : List Char) (c : Char) (rest : List Char)
    (hds : ∀ x ∈ ds, x.isDigit = true) (hc : c.isDigit = false) :
    (ds ++ c :: rest).takeWhile Char.isDigit = ds ∧
      (ds ++ c :: rest).dropWhile Char.isDigit = c :: rest := by
  induction ds with
  | nil => simp [List.takeWhile_cons, List.dropWhile_cons, hc]
  | cons a t ih =>
    have ha : a.isDigit = true := hds a (by simp)
    obtain ⟨h1, h2⟩ := ih (fun x hx => hds x (by simp [hx]))
    simp [List.takeWhile_cons, List.dropWhile_cons, ha, h1, h2]

/-- Reduction of a strptime numeric field on a digit run of legal width
followed by a non-digit. -/
theorem numField_run (w : Nat) (ds : List Char) (c : Char) (rest : List Char)
    (hds : ∀ x ∈ ds, x.isDigit = true) (hc : c.isDigit = false)
    (h1 : 1 ≤ ds.length) (h2 : ds.length ≤ w) :
    numField w (ds ++ c :: rest) = some (natOfDigits ds, c :: rest) := by
  obtain ⟨ht, hd⟩ := takeWhile_digits ds c rest hds hc
  simp [numField, ht, hd]
  exact ⟨List.length_pos.mp (by omega), h2⟩

/-- Reduction of a format literal on its matching (first-alternative)
character. -/
theorem litChar_cons_left (a b : Char) (rest : List Char) :
    litChar a b (a :: rest) = some rest := by
  simp [litChar]

set_option maxHeartbeats 1000000 in
/-- Parsing an assembled ISO fractional-seconds UTC timestamp with the
`"%Y-%m-%dT%H:%M:%S.%fZ"` pattern recovers its fields. -/
theorem strptime_mkIso (y m d h mi sec : Nat) (fr : List Char)
    (hv : validDateTime y m d h mi sec = true)
    (hfr : ∀ c ∈ fr, c.isDigit = true)
    (hl1 : 1 ≤ fr.length) (hl6 : fr.length ≤ 6) :
    strptimeIsoFracZ (mkIso y m d h mi sec fr) =
      some (y, m, d, h, mi, sec) := by
  have hv2 : 1 ≤ y ∧ y ≤ 9999 ∧ 1 ≤ m ∧ m ≤ 12 ∧ 1 ≤ d ∧
      d ≤ daysInMonth y m ∧ h ≤ 23 ∧ mi ≤ 59 ∧ sec ≤ 59 := by
    simpa [validDateTime] using hv
  have hdm : daysInMonth y m ≤ 31 := by
    simp only [daysInMonth]
    split <;> split <;> omega
  have hy : y ≤ 9999 := by omega
  have hm : m ≤ 99 := by omega
  have hd2 : d ≤ 99 := by omega
  have hh : h ≤ 99 := by omega
  have hmi : mi ≤ 99 := by omega
  have hsec : sec ≤ 99 := by omega
  have lp4 : (pad4 y).length = 4 := rfl
  have hdata : (mkIso y m d h mi sec fr).data =
      pad4 y ++ '-' :: (pad2 m ++ '-' :: (pad2 d ++ 'T' :: (pad2 h ++
        ':' :: (pad2 mi ++ ':' :: (pad2 sec ++ '.' :: (fr ++ ['Z'])))))) := rfl
  have e1 := takeWhile_digits (pad4 y) '-'
    (pad2 m ++ '-' :: (pad2 d ++ 'T' :: (pad2 h ++ ':' :: (pad2 mi ++
      ':' :: (pad2 sec ++ '.' :: (fr ++ ['Z']))))))
    (pad4_isDigit y) (by decide)
  have e2 := numField_run 2 (pad2 m) '-'
    (pad2 d ++ 'T' :: (pad2 h ++ ':' :: (pad2 mi ++ ':' :: (pad2 sec ++
      '.' :: (fr ++ ['Z'])))))
    (pad2_isDigit m) (by decide) (by simp [pad2]) (by simp [pad2])
  have e3 := numField_run 2 (pad2 d) 'T'
    (pad2 h ++ ':' :: (pad2 mi ++ ':' :: (pad2 sec ++ '.' :: (fr ++ ['Z']))))
    (pad2_isDigit d) (by decide) (by simp [pad2]) (by simp [pad2])
  have e4 := numField_run 2 (pad2 h) ':'
    (pad2 mi ++ ':' :: (pad2 sec ++ '.' :: (fr ++ ['Z'])))
    (pad2_isDigit h) (by decide) (by simp [pad2]) (by simp [pad2])
  have e5 := numField_run 2 (pad2 mi) ':'
    (pad2 sec ++ '.' :: (fr ++ ['Z']))
    (pad2_isDigit mi) (by decide) (by simp [pad2]) (by simp [pad2])
  have e6 := numField_run 2 (pad2 sec) '.'
    (fr ++ ['Z'])
    (pad2_isDigit sec) (by decide) (by simp [pad2]) (by simp [pad2])
  have e7 := numField_run 6 fr 'Z' [] hfr (by decide) hl1 hl6
  simp only [strptimeIsoFracZ]
  rw [hdata, e1.1, e1.2, lp4]
  rw [if_neg (by omega)]
  rw [litChar_cons_left]
  simp only [Option.bind_eq_bind, Option.some_bind]
  rw [e2]
  simp only [Option.some_bind]
  rw [litChar_cons_left]
  simp only [Option.some_bind]
  rw [e3]
  simp only [Option.some_bind]
  rw [litChar_cons_left]
  simp only [Option.some_bind]
  rw [e4]
  simp only [Option.some_bind]
  rw [litChar_cons_left]
  simp only [Option.some_bind]
  rw [e5]
  simp only [Option.some_bind]
  rw [litChar_cons_left]
  simp only [Option.some_bind]
  rw [e6]
  simp only [Option.some_bind]
  rw [litChar_cons_left]
  simp only [Option.some_bind]
  rw [e7]
  simp only [Option.some_bind]
  rw [litChar_cons_left]
  simp only [Option.some_bind]
  rw [natOfDigits_pad4 y hy, natOfDigits_pad2 m hm, natOfDigits_pad2 d hd2,
    natOfDigits_pad2 h hh, natOfDigits_pad2 mi hmi, natOfDigits_pad2 sec hsec]
  rw [hv]
  simp

/-- C7: `convert_datetime` maps every ISO-8601 timestamp with fractional
seconds and `Z` suffix to its `YYYY-MM-DD` calendar-date prefix (the first
ten characters), maps `"2014-12-09T13:50:51.644000Z"` to `"2014-12-09"` in
particular, and fails (the `ValueError` of `strptime`, the spec's
`DateParseError`) on every input the fractional-seconds UTC pattern does
not accept. -/
theorem convert_datetime_spec :
    (∀ (y m d h mi sec : Nat) (fr : List Char),
        validDateTime y m d h mi sec = true →
        (∀ c ∈ fr, c.isDigit = true) → 1 ≤ fr.length → fr.length ≤ 6 →
        convert_datetime (mkIso y m d h mi sec fr) =
          some (String.mk ((mkIso y m d h mi sec fr).data.take 10))) ∧
      (∀ s, strptimeIsoFracZ s = none → convert_datetime s = none) ∧
      convert_datetime "2014-12-09T13:50:51.644000Z" = some "2014-12-09" := by
  refine ⟨?_, ?_, by decide⟩
  · intro y m d h mi sec fr hv hfr hl1 hl6
    have hs := strptime_mkIso y m d h mi sec fr hv hfr hl1 hl6
    have ht : (mkIso y m d h mi sec fr).data.take 10 =
        pad4 y ++ '-' :: (pad2 m ++ '-' :: pad2 d) := by
      simp [mkIso, pad4, pad2, List.take]
    simp only [convert_datetime, hs, Option.map_some, ht]
    simp [strftimeYmd, pad4, pad2]
  · intro s h
    simp [convert_datetime, h]

/-- Witness for `convert_datetime_spec`: the assembled timestamp for
2014-12-09 13:50:51.644000 is the example string, and its conversion
yields the ten-character date prefix. -/
theorem convert_datetime_spec_witness :
    mkIso 2014 12 9 13 50 51 ['6', '4', '4', '0', '0', '0'] =
        "2014-12-09T13:50:51.644000Z" ∧
      convert_datetime (mkIso 2014 12 9 13 50 51 ['6', '4', '4', '0', '0', '0']) =
        some (String.mk ((mkIso 2014 12 9 13 50 51
          ['6', '4', '4', '0', '0', '0']).data.take 10)) := by
  exact ⟨by decide, convert_datetime_spec.1 2014 12 9 13 50 51
    ['6', '4', '4', '0', '0', '0'] (by decide) (by decide) (by decide)
    (by decide)⟩
